import Mathlib

/-!
# clk-iioproxy: the proxy clock and its rate-control protocol

A shallow embedding of `iioproxy.c`.  Pointers that may be `NULL` are `Option`s,
`unsigned long` values are natural numbers, `int` and `long` values are integers,
and a dereference of a `NULL` pointer is the outcome `fault`.  The hardware behind
the IIO channel is a state machine over an arbitrary state type `σ`; every call of
`write_raw` is appended to a log so that hardware accesses can be counted.
-/

namespace IioProxy

/-! ## Machine integers and kernel constants -/

/-- Errno value `EINVAL` of the kernel headers. -/
def EINVAL : Int := 22

/-- Errno value of an I/O error in the kernel headers. -/
def EIO : Int := 5

/-- Errno value `ENOMEM` of the kernel headers. -/
def ENOMEM : Int := 12

/-- Conversion of an `unsigned long` to `int` (the type of the `val` parameter of
`write_raw`): reduction modulo `2^32`, read as two's complement. -/
def int_of_ulong (x : Nat) : Int :=
  if x % 2 ^ 32 < 2 ^ 31 then ((x % 2 ^ 32 : Nat) : Int)
  else ((x % 2 ^ 32 : Nat) : Int) - 2 ^ 32

/-- Conversion of an `unsigned long` of `w` bits to `long` (the return type of
`round_rate`): reduction modulo `2^w`, read as two's complement. -/
def long_of_ulong (w x : Nat) : Int :=
  if x % 2 ^ w < 2 ^ (w - 1) then ((x % 2 ^ w : Nat) : Int)
  else ((x % 2 ^ w : Nat) : Int) - 2 ^ w

/-- The channel-info classes a `write_raw` call can be tagged with (the ones of
`enum iio_chan_info_enum` around the frequency class). -/
inductive iio_chan_info_enum where
  | IIO_CHAN_INFO_RAW
  | IIO_CHAN_INFO_SCALE
  | IIO_CHAN_INFO_SAMP_FREQ
  | IIO_CHAN_INFO_FREQUENCY
  | IIO_CHAN_INFO_PHASE
  deriving DecidableEq, Repr

/-- Result of running a piece of kernel code: it returns a value, or it
dereferences a `NULL` pointer. -/
inductive outcome (α : Type) where
  | ret (a : α)
  | fault
  deriving DecidableEq, Repr

/-! ## Data model -/

/-- The part of `struct iio_chan_spec` the driver fills in: `indio_command.channel`. -/
structure iio_chan_spec where
  channel : Int
  deriving DecidableEq, Repr

/-- One call of `write_raw` as seen by the hardware: its arguments and its status. -/
structure write_call where
  channel : Int
  val : Int
  val2 : Int
  mask : iio_chan_info_enum
  status : Int
  deriving DecidableEq, Repr

/-- The `struct iio_info` operation table; `write_raw` may be `NULL`.  The
operation acts on the hardware state and returns a status. -/
structure iio_info (σ : Type) where
  write_raw : Option (σ → iio_chan_spec → Int → Int → iio_chan_info_enum → Int × σ)

/-- The fields of `struct iio_dev` that `clk_iioproxy_set_rate` reads. -/
structure iio_dev (σ : Type) where
  channels : Option (List iio_chan_spec)
  info : Option (iio_info σ)

/-- The proxy object `struct clk_iioproxy_struct`. -/
structure clk_iioproxy_struct (σ : Type) where
  current_rate : Nat
  fixed_accuracy : Nat
  indio_dev : Option (iio_dev σ)

/-- What a clock operation can touch: the proxy object behind `hw`, the state of
the hardware behind the channel, and the log of the `write_raw` calls issued. -/
structure world (σ : Type) where
  st : clk_iioproxy_struct σ
  hwstate : σ
  writes : List write_call

/-! ## The rate-control protocol -/

/-- `clk_iioproxy_recalc_rate`: the cached rate. -/
def clk_iioproxy_recalc_rate {σ : Type} (hw : world σ) (_parent_rate : Nat) : Nat :=
  hw.st.current_rate

/-- `clk_iioproxy_recalc_accuracy`: the fixed accuracy. -/
def clk_iioproxy_recalc_accuracy {σ : Type} (hw : world σ) (_parent_accuracy : Nat) : Nat :=
  hw.st.fixed_accuracy

/-- `clk_iioproxy_round_rate`: `return rate;` with the return type `long`, on a
machine whose `long` has `w` bits. -/
def clk_iioproxy_round_rate {σ : Type} (w : Nat) (hw : world σ) (rate : Nat)
    (_parent_rate : Nat) : Int × world σ :=
  (long_of_ulong w rate, hw)

/-- `clk_iioproxy_set_rate`.  The status is `0` or `-EINVAL`; `my_indio_dev` is
dereferenced without a `NULL` test. -/
def clk_iioproxy_set_rate {σ : Type} (hw : world σ) (rate : Nat) (_parent_rate : Nat) :
    outcome (Int × world σ) :=
  let st := hw.st
  let my_indio_dev := st.indio_dev
  if rate = st.current_rate then .ret (0, hw)
  else
    match my_indio_dev with
    | none => .fault
    | some dev =>
      match dev.channels with
      | none => .ret (-EINVAL, hw)
      | some _ =>
        match dev.info with
        | none => .ret (-EINVAL, hw)
        | some indio_info =>
          match indio_info.write_raw with
          | none => .ret (-EINVAL, hw)
          | some write_raw =>
            let indio_command : iio_chan_spec := { channel := 0 }
            let r := write_raw hw.hwstate indio_command (int_of_ulong rate) 0
              .IIO_CHAN_INFO_FREQUENCY
            let log := hw.writes ++
              [{ channel := indio_command.channel, val := int_of_ulong rate, val2 := 0,
                 mask := .IIO_CHAN_INFO_FREQUENCY, status := r.1 }]
            if r.1 ≠ 0 then
              .ret (-EINVAL, { st := st, hwstate := r.2, writes := log })
            else
              .ret (0, { st := { st with current_rate := rate }, hwstate := r.2,
                         writes := log })

/-- The two calls `set_rate(r); set_rate(r)` in a row: both statuses and the
world after the second call. -/
def set_rate_twice {σ : Type} (hw : world σ) (rate : Nat) :
    outcome (Int × Int × world σ) :=
  match clk_iioproxy_set_rate hw rate 0 with
  | .fault => .fault
  | .ret (s1, hw1) =>
    match clk_iioproxy_set_rate hw1 rate 0 with
    | .fault => .fault
    | .ret (s2, hw2) => .ret (s1, s2, hw2)

/-- A run of `set_rate` calls, each given as `(rate, parent_rate)`; the statuses
are discarded. -/
def set_rate_seq {σ : Type} (hw : world σ) : List (Nat × Nat) → outcome (world σ)
  | [] => .ret hw
  | c :: cs =>
    match clk_iioproxy_set_rate hw c.1 c.2 with
    | .fault => .fault
    | .ret (_, hw1) => set_rate_seq hw1 cs

/-- The `val` argument of the most recent logged write whose status is `0`. -/
def last_ok_val : List write_call → Option Int
  | [] => none
  | c :: cs =>
    match last_ok_val cs with
    | some v => some v
    | none => if c.status = 0 then some c.val else none

/-! ## Registration -/

/-- Outcomes of the collaborators of registration: whether `kzalloc` returns
memory, and the statuses of `clk_hw_register` and `of_clk_add_provider`
(`0`, or a negative errno). -/
structure clk_env where
  kzalloc_ok : Bool
  clk_hw_register : Int
  of_clk_add_provider : Int
  deriving DecidableEq, Repr

/-- `clk_hw_register_iioproxy_with_accuracy`: `ERR_PTR(e)` is `.error e`; `kzalloc`
zeroes the object, so `indio_dev` starts as `NULL`. -/
def clk_hw_register_iioproxy_with_accuracy {σ : Type} (env : clk_env) (_name : String)
    (_parent_name : Option String) (_flags : Nat) (current_rate fixed_accuracy : Nat) :
    Except Int (clk_iioproxy_struct σ) :=
  if !env.kzalloc_ok then .error (-ENOMEM)
  else
    let st : clk_iioproxy_struct σ :=
      { current_rate := current_rate, fixed_accuracy := fixed_accuracy, indio_dev := none }
    let ret := env.clk_hw_register
    if ret ≠ 0 then .error ret else .ok st

/-- `clk_register_iioproxy_with_accuracy`: the same, handing out `hw->clk`. -/
def clk_register_iioproxy_with_accuracy {σ : Type} (env : clk_env) (name : String)
    (parent_name : Option String) (flags : Nat) (current_rate fixed_accuracy : Nat) :
    Except Int (clk_iioproxy_struct σ) :=
  match clk_hw_register_iioproxy_with_accuracy env name parent_name flags current_rate
      fixed_accuracy with
  | .error e => .error e
  | .ok hw => .ok hw

/-- `clk_hw_register_iioproxy`: accuracy `0`. -/
def clk_hw_register_iioproxy {σ : Type} (env : clk_env) (name : String)
    (parent_name : Option String) (flags : Nat) (current_rate : Nat) :
    Except Int (clk_iioproxy_struct σ) :=
  clk_hw_register_iioproxy_with_accuracy env name parent_name flags current_rate 0

/-- `clk_register_iioproxy`: accuracy `0`. -/
def clk_register_iioproxy {σ : Type} (env : clk_env) (name : String)
    (parent_name : Option String) (flags : Nat) (current_rate : Nat) :
    Except Int (clk_iioproxy_struct σ) :=
  clk_register_iioproxy_with_accuracy env name parent_name flags current_rate 0

/-! ## Channel resolution -/

/-- The fields of `struct device` that resolution reads: the device-tree node the
device was created from (`NULL` for a device without one), the bound driver
(`NULL` before probing) and the driver data. -/
structure device (σ : Type) where
  of_node : Option Nat
  driver : Option String
  driver_data : Option (iio_dev σ)

/-- The search record `struct iioproxy_devpair`. -/
structure iioproxy_devpair (σ : Type) where
  of_iio : Option Nat
  dev_iio : Option (device σ)

/-- `find_iio_from_platform_dev`: the callback of the registry walk. -/
def find_iio_from_platform_dev {σ : Type} (dev : device σ) (idp : iioproxy_devpair σ) :
    Int × iioproxy_devpair σ :=
  if idp.of_iio = dev.of_node ∧ dev.driver.isSome then
    (1, { idp with dev_iio := some dev })
  else (0, idp)

/-- `bus_for_each_dev` of the driver core over the devices of a bus in iteration
order: the callback runs on each device until it returns non-zero, and that
status (or `0` at the end of the list) is returned. -/
def bus_for_each_dev {σ δ : Type} (bus : List (device σ)) (data : δ)
    (fn : device σ → δ → Int × δ) : Int × δ :=
  match bus with
  | [] => (0, data)
  | dev :: rest =>
    let r := fn dev data
    if r.1 ≠ 0 then r else bus_for_each_dev rest r.2 fn

/-- `dev_get_drvdata` of the driver core: `return dev->driver_data;`, which reads
through `dev` without a `NULL` test. -/
def dev_get_drvdata {σ : Type} (dev : Option (device σ)) : outcome (Option (iio_dev σ)) :=
  match dev with
  | none => .fault
  | some d => .ret d.driver_data

/-- The resolution step of `_of_iioproxy_clk_setup` (`idp` is a local variable
whose `dev_iio` member is not initialised: `stack` is what the slot holds): the
walk's status and the search record after `bus_for_each_dev`. -/
def resolve_channel {σ : Type} (of_iio : Option Nat) (stack : Option (device σ))
    (platform_bus : List (device σ)) : Int × iioproxy_devpair σ :=
  let idp : iioproxy_devpair σ := { of_iio := of_iio, dev_iio := stack }
  bus_for_each_dev platform_bus idp find_iio_from_platform_dev

/-! ## Setup -/

/-- The properties of the configuration node as the `of_*` readers report them:
an absent property is `none`; `iiohwdev` is the node the phandle points to. -/
structure device_node where
  name : String
  clock_frequency : Option Nat
  clock_accuracy : Option Nat
  clock_output_names : Option String
  iiohwdev : Option Nat
  deriving DecidableEq, Repr

/-- The surroundings of a setup run: the platform bus, the stale content of the
stack slot of `idp.dev_iio`, the collaborators of registration, and the hardware. -/
structure kernel_env (σ : Type) where
  platform_bus : List (device σ)
  stack_dev_iio : Option (device σ)
  clk : clk_env
  hwstate : σ
  writes : List write_call

/-- The `struct clk *` a setup run hands back. -/
inductive clk_ptr (σ : Type) where
  | ERR_PTR (e : Int)
  | clk (hw : world σ)

/-- A returned setup run: the pointer, and whether the clock is registered with
the clock framework and advertised as a provider at that moment. -/
structure setup_ret (σ : Type) where
  ptr : clk_ptr σ
  registered : Bool
  provider : Bool

/-- `_of_iioproxy_clk_setup`. -/
def _of_iioproxy_clk_setup {σ : Type} (env : kernel_env σ) (node : device_node) :
    outcome (setup_ret σ) :=
  match node.clock_frequency with
  | none => .ret { ptr := .ERR_PTR (- EIO), registered := false, provider := false }
  | some initial_rate =>
    let accuracy := node.clock_accuracy.getD 0
    let clk_name := node.clock_output_names.getD node.name
    let idp := (resolve_channel node.iiohwdev env.stack_dev_iio env.platform_bus).2
    match dev_get_drvdata idp.dev_iio with
    | .fault => .fault
    | .ret my_indio_dev =>
      match (clk_register_iioproxy_with_accuracy env.clk clk_name none 0 initial_rate
          accuracy : Except Int (clk_iioproxy_struct σ)) with
      | .error e => .ret { ptr := .ERR_PTR e, registered := false, provider := false }
      | .ok st0 =>
        let st1 : clk_iioproxy_struct σ := { st0 with indio_dev := my_indio_dev }
        let ret := env.clk.of_clk_add_provider
        if ret ≠ 0 then
          .ret { ptr := .ERR_PTR ret, registered := false, provider := false }
        else
          let st2 : clk_iioproxy_struct σ := { st1 with current_rate := 0 }
          match clk_iioproxy_set_rate
              { st := st2, hwstate := env.hwstate, writes := env.writes } initial_rate 0 with
          | .fault => .fault
          | .ret (_, hw) => .ret { ptr := .clk hw, registered := true, provider := true }


/-! ## Observations and fixtures -/

/-- Apply an observation to the value a run returns. -/
def outcome.map {α β : Type} (f : α → β) : outcome α → outcome β
  | .ret a => .ret (f a)
  | .fault => .fault

/-- Operation table of a channel whose write always succeeds. -/
def ok_info : iio_info Unit :=
  { write_raw := some (fun s _ _ _ _ => (0, s)) }

/-- Operation table of a channel whose write always fails (status `-5`). -/
def fail_info : iio_info Unit :=
  { write_raw := some (fun s _ _ _ _ => (-5, s)) }

/-- An IIO device with one channel whose write always succeeds. -/
def ok_dev : iio_dev Unit :=
  { channels := some [{ channel := 0 }], info := some ok_info }

/-- An IIO device with one channel whose write always fails. -/
def fail_dev : iio_dev Unit :=
  { channels := some [{ channel := 0 }], info := some fail_info }

/-- An IIO device with one channel and an operation table without a write
operation (`write_raw == NULL`). -/
def nowrite_dev : iio_dev Unit :=
  { channels := some [{ channel := 0 }], info := some { write_raw := none } }

/-- A proxy clock with the given cached rate on the given channel reference,
accuracy `0`, nothing written yet. -/
def world_of (indio_dev : Option (iio_dev Unit)) (current_rate : Nat) : world Unit :=
  { st := { current_rate := current_rate, fixed_accuracy := 0, indio_dev := indio_dev },
    hwstate := (), writes := [] }

/-- The world after the channel `ok_dev` has accepted one write of 1000. -/
def world_at_1000 : world Unit :=
  { st := { current_rate := 1000, fixed_accuracy := 0, indio_dev := some ok_dev },
    hwstate := (),
    writes := [{ channel := 0, val := 1000, val2 := 0,
                 mask := .IIO_CHAN_INFO_FREQUENCY, status := 0 }] }

/-- Setup followed by a run of `set_rate` calls on the clock it hands back
(`none` when setup hands back an `ERR_PTR`). -/
def setup_then_set_rates {σ : Type} (env : kernel_env σ) (node : device_node)
    (calls : List (Nat × Nat)) : outcome (Option (world σ)) :=
  match _of_iioproxy_clk_setup env node with
  | .fault => .fault
  | .ret r =>
    match r.ptr with
    | .ERR_PTR _ => .ret none
    | .clk hw => (set_rate_seq hw calls).map some

/-- What resolution looks for: the node identity equals the handle and a driver
is bound. -/
def is_bound_to {σ : Type} (handle : Option Nat) (dev : device σ) : Bool :=
  decide (handle = dev.of_node) && dev.driver.isSome

/-- The observable part of a returned setup run: the error code of an `ERR_PTR`,
else the rate and accuracy the clock reports and the write log; and the two
framework flags. -/
structure setup_view where
  err : Option Int
  rate : Nat
  accuracy : Nat
  writes : List write_call
  registered : Bool
  provider : Bool
  deriving DecidableEq, Repr

/-- Observe a returned setup run. -/
def setup_ret.view {σ : Type} (r : setup_ret σ) : setup_view :=
  match r.ptr with
  | .ERR_PTR e =>
    { err := some e, rate := 0, accuracy := 0, writes := [],
      registered := r.registered, provider := r.provider }
  | .clk hw =>
    { err := none, rate := clk_iioproxy_recalc_rate hw 0,
      accuracy := clk_iioproxy_recalc_accuracy hw 0, writes := hw.writes,
      registered := r.registered, provider := r.provider }

/-- A platform device created from node 1, bound to a driver, whose driver data
is the given IIO device. -/
def iio_platform_dev (d : iio_dev Unit) : device Unit :=
  { of_node := some 1, driver := some "iio-hw", driver_data := some d }

/-- A platform device created from node 1 that no driver has bound yet. -/
def unbound_dev : device Unit :=
  { of_node := some 1, driver := none, driver_data := none }

/-- A driver-bound platform device that has no device-tree node of its own. -/
def nodeless_dev : device Unit :=
  { of_node := none, driver := some "alarmtimer", driver_data := none }

/-- A driver-bound platform device created from node 9. -/
def stale_dev : device Unit :=
  { of_node := some 9, driver := some "other", driver_data := none }

/-- The configuration `{clock-frequency: f, iiohwdev: <node 1>}`. -/
def clock_node (f : Nat) : device_node :=
  { name := "iioclk", clock_frequency := some f, clock_accuracy := none,
    clock_output_names := none, iiohwdev := some 1 }

/-- Surroundings in which allocation, registration and provider advertisement
succeed, with the given platform bus and nothing written yet. -/
def kernel_of (bus : List (device Unit)) : kernel_env Unit :=
  { platform_bus := bus, stack_dev_iio := none,
    clk := { kzalloc_ok := true, clk_hw_register := 0, of_clk_add_provider := 0 },
    hwstate := (), writes := [] }

/-! ## Lemmas on the machine-integer conversions -/

theorem int_of_ulong_small (x : Nat) (h : x < 2 ^ 31) : int_of_ulong x = (x : Int) := by
  have h32 : x % 2 ^ 32 = x := Nat.mod_eq_of_lt (by omega)
  unfold int_of_ulong
  rw [h32, if_pos h]

theorem int_of_ulong_lt (x : Nat) : int_of_ulong x < 2 ^ 31 := by
  unfold int_of_ulong
  have hm : x % 2 ^ 32 < 2 ^ 32 := Nat.mod_lt _ (by norm_num)
  split
  · next h => exact_mod_cast h
  · omega

theorem int_of_ulong_eq_iff (x : Nat) : int_of_ulong x = (x : Int) ↔ x < 2 ^ 31 := by
  constructor
  · intro h
    have := int_of_ulong_lt x
    rw [h] at this
    exact_mod_cast this
  · exact int_of_ulong_small x

/-! ## How a call of `set_rate` can end -/

/-- A returned `set_rate` either left the world alone (fast path, or a missing
capability), or logged one failed write and kept the proxy object, or logged one
accepted write of the narrowed rate and committed the rate. -/
theorem set_rate_ret_cases {σ : Type} (hw hw1 : world σ) (rate parent_rate : Nat)
    (status : Int)
    (h : clk_iioproxy_set_rate hw rate parent_rate = .ret (status, hw1)) :
    (hw1 = hw ∧ ((status = 0 ∧ rate = hw.st.current_rate) ∨
        (status = -EINVAL ∧ rate ≠ hw.st.current_rate))) ∨
    (∃ c : write_call, hw1.writes = hw.writes ++ [c] ∧ hw1.st = hw.st ∧
        c.status ≠ 0 ∧ status = -EINVAL ∧ rate ≠ hw.st.current_rate) ∨
    (∃ c : write_call, hw1.writes = hw.writes ++ [c] ∧
        hw1.st = { hw.st with current_rate := rate } ∧ c.status = 0 ∧
        c.val = int_of_ulong rate ∧ status = 0 ∧ rate ≠ hw.st.current_rate) := by
  unfold clk_iioproxy_set_rate at h
  dsimp only at h
  split at h
  · next heq =>
    injection h with h; injection h with h1 h2
    subst h1 h2
    exact Or.inl ⟨rfl, Or.inl ⟨rfl, heq⟩⟩
  · next hne =>
    split at h
    · exact outcome.noConfusion h
    · split at h
      · injection h with h; injection h with h1 h2
        subst h1 h2
        exact Or.inl ⟨rfl, Or.inr ⟨rfl, hne⟩⟩
      · split at h
        · injection h with h; injection h with h1 h2
          subst h1 h2
          exact Or.inl ⟨rfl, Or.inr ⟨rfl, hne⟩⟩
        · split at h
          · injection h with h; injection h with h1 h2
            subst h1 h2
            exact Or.inl ⟨rfl, Or.inr ⟨rfl, hne⟩⟩
          · split at h
            · next hs =>
              injection h with h; injection h with h1 h2
              subst h1 h2
              exact Or.inr (Or.inl ⟨_, rfl, rfl, hs, rfl, hne⟩)
            · next hs =>
              injection h with h; injection h with h1 h2
              subst h1 h2
              exact Or.inr (Or.inr ⟨_, rfl, rfl, not_not.mp hs, rfl, rfl, hne⟩)

/-- With a channel reference attached, `set_rate` returns. -/
theorem set_rate_returns {σ : Type} (hw : world σ) (rate parent_rate : Nat)
    (dev : iio_dev σ) (hd : hw.st.indio_dev = some dev) :
    ∃ status hw1, clk_iioproxy_set_rate hw rate parent_rate = .ret (status, hw1) := by
  unfold clk_iioproxy_set_rate
  dsimp only
  rw [hd]
  split
  · exact ⟨_, _, rfl⟩
  · dsimp only
    split
    · exact ⟨_, _, rfl⟩
    · split
      · exact ⟨_, _, rfl⟩
      · split
        · exact ⟨_, _, rfl⟩
        · split
          · exact ⟨_, _, rfl⟩
          · exact ⟨_, _, rfl⟩

/-- Without a channel reference, a request for a new rate dereferences `NULL`. -/
theorem set_rate_null_faults {σ : Type} (hw : world σ) (rate parent_rate : Nat)
    (hn : hw.st.indio_dev = none) (hne : rate ≠ hw.st.current_rate) :
    clk_iioproxy_set_rate hw rate parent_rate = .fault := by
  unfold clk_iioproxy_set_rate
  dsimp only
  rw [if_neg hne, hn]

/-! ## C1: a successful `set_rate` commits the rate, a failed one leaves it -/

/-- C1: whenever `clk_iioproxy_set_rate(r)` returns, a status `0` means that
`clk_iioproxy_recalc_rate` now returns `r`, and a non-zero status means that it
returns what it returned before the call. -/
theorem set_rate_commit_or_keep {σ : Type} (hw hw1 : world σ) (rate parent_rate p q : Nat)
    (status : Int)
    (h : clk_iioproxy_set_rate hw rate parent_rate = .ret (status, hw1)) :
    (status = 0 → clk_iioproxy_recalc_rate hw1 p = rate) ∧
    (status ≠ 0 → clk_iioproxy_recalc_rate hw1 p = clk_iioproxy_recalc_rate hw q) := by
  unfold clk_iioproxy_set_rate at h
  simp only [clk_iioproxy_recalc_rate]
  dsimp only at h
  split at h
  · next heq =>
    injection h with h; injection h with h1 h2
    subst h1 h2
    exact ⟨fun _ => heq.symm, fun hne => absurd rfl hne⟩
  · split at h
    · exact outcome.noConfusion h
    · split at h
      · injection h with h; injection h with h1 h2
        subst h1 h2
        exact ⟨fun h0 => by simp [EINVAL] at h0, fun _ => rfl⟩
      · split at h
        · injection h with h; injection h with h1 h2
          subst h1 h2
          exact ⟨fun h0 => by simp [EINVAL] at h0, fun _ => rfl⟩
        · split at h
          · injection h with h; injection h with h1 h2
            subst h1 h2
            exact ⟨fun h0 => by simp [EINVAL] at h0, fun _ => rfl⟩
          · split at h
            · injection h with h; injection h with h1 h2
              subst h1 h2
              exact ⟨fun h0 => by simp [EINVAL] at h0, fun _ => rfl⟩
            · injection h with h; injection h with h1 h2
              subst h1 h2
              exact ⟨fun _ => rfl, fun hne => absurd rfl hne⟩

/-- Witness of C1: a write of 1000 that the hardware accepts, on a clock cached at 0. -/
theorem set_rate_commit_or_keep_witness :
    ((0 : Int) = 0 → clk_iioproxy_recalc_rate world_at_1000 0 = 1000) ∧
    ((0 : Int) ≠ 0 → clk_iioproxy_recalc_rate world_at_1000 0 =
        clk_iioproxy_recalc_rate (world_of (some ok_dev) 0) 0) :=
  set_rate_commit_or_keep (world_of (some ok_dev) 0) world_at_1000 1000 0 0 0 0 (by rfl)

/-! ## C2: repeating a request -/

/-- C2, counterexample: on a channel whose write fails, `set_rate(1000)` twice in
a row on a clock cached at 0 issues two hardware writes, and the second call
returns `-EINVAL`. -/
theorem set_rate_twice_failing_channel :
    (set_rate_twice (world_of (some fail_dev) 0) 1000).map
      (fun r => (r.1, r.2.1, r.2.2.writes.length)) = .ret (-22, -22, 2) := by
  decide

/-- C2, amended: when the first `set_rate(r)` returns success, the second
`set_rate(r)` returns success and leaves the world (the write log included) as
it is, and the first call has logged at most one write. -/
theorem set_rate_repeat_after_success {σ : Type} (hw hw1 : world σ)
    (rate parent_rate parent_rate2 : Nat)
    (h : clk_iioproxy_set_rate hw rate parent_rate = .ret (0, hw1)) :
    clk_iioproxy_set_rate hw1 rate parent_rate2 = .ret (0, hw1) ∧
    (∃ cs : List write_call, hw1.writes = hw.writes ++ cs ∧ cs.length ≤ 1) ∧
    set_rate_twice hw rate = .ret (0, 0, hw1) := by
  have hcur : rate = hw1.st.current_rate := by
    rcases set_rate_ret_cases hw hw1 rate parent_rate 0 h with
      ⟨he, h1 | h1⟩ | ⟨c, _, _, _, h1, _⟩ | ⟨c, _, hst, _⟩
    · rw [he]; exact h1.2
    · exact absurd h1.1 (by simp [EINVAL])
    · exact absurd h1 (by simp [EINVAL])
    · rw [hst]
  have hsecond : ∀ q, clk_iioproxy_set_rate hw1 rate q = .ret (0, hw1) := by
    intro q
    unfold clk_iioproxy_set_rate
    dsimp only
    rw [if_pos hcur]
  have hfirst : clk_iioproxy_set_rate hw rate 0 = .ret (0, hw1) := h
  refine ⟨hsecond parent_rate2, ?_, ?_⟩
  · rcases set_rate_ret_cases hw hw1 rate parent_rate 0 h with
      ⟨he, _⟩ | ⟨c, hwr, _⟩ | ⟨c, hwr, _⟩
    · exact ⟨[], by rw [he]; simp, by simp⟩
    · exact ⟨[c], hwr, by simp⟩
    · exact ⟨[c], hwr, by simp⟩
  · unfold set_rate_twice
    rw [hfirst]
    dsimp only
    rw [hsecond 0]

/-- Witness of C2, amended: 1000 requested twice on a channel that accepts writes. -/
theorem set_rate_repeat_after_success_witness :
    clk_iioproxy_set_rate world_at_1000 1000 7 = .ret (0, world_at_1000) ∧
    (∃ cs : List write_call,
        world_at_1000.writes = (world_of (some ok_dev) 0).writes ++ cs ∧ cs.length ≤ 1) ∧
    set_rate_twice (world_of (some ok_dev) 0) 1000 = .ret (0, 0, world_at_1000) :=
  set_rate_repeat_after_success (world_of (some ok_dev) 0) world_at_1000 1000 0 7 (by rfl)

/-! ## C3: a clock without a channel reference -/

/-- C3, the code at the failing input: with `indio_dev == NULL` and a cached rate
of 0, `clk_iioproxy_set_rate(1000)` does not return a status: it dereferences
the `NULL` channel reference. -/
theorem set_rate_without_channel_faults :
    clk_iioproxy_set_rate (world_of none 0) 1000 0 = .fault :=
  set_rate_null_faults (world_of none 0) 1000 0 rfl (by decide)


/-! ## C9: `round_rate` -/

/-- C9, counterexample: for the request `2^63` on a 64-bit machine (and `2^31` on
a 32-bit one), which lies above the largest positive `long`,
`clk_iioproxy_round_rate` returns the negative number `-2^63` (`-2^31`), not the
request. -/
theorem round_rate_above_long_max :
    (clk_iioproxy_round_rate 64 (world_of (some ok_dev) 0) 9223372036854775808 0).1
        = -9223372036854775808 ∧
    (clk_iioproxy_round_rate 64 (world_of (some ok_dev) 0) 9223372036854775808 0).1
        ≠ ((9223372036854775808 : Nat) : Int) ∧
    (clk_iioproxy_round_rate 32 (world_of (some ok_dev) 0) 2147483648 0).1
        ≠ ((2147483648 : Nat) : Int) := by
  simp [clk_iioproxy_round_rate, long_of_ulong]

/-- C9, amended: for every request `x` of an `unsigned long` of `w` bits,
`clk_iioproxy_round_rate` leaves the world (proxy object, hardware state and
write log) as it is, and returns `x` read as a `long`: `x` itself when
`x < 2^(w-1)`, and `x - 2^w` otherwise. -/
theorem round_rate_identity_as_long {σ : Type} (w : Nat) (hw : world σ)
    (x parent_rate : Nat) (hx : x < 2 ^ w) :
    (clk_iioproxy_round_rate w hw x parent_rate).2 = hw ∧
    (x < 2 ^ (w - 1) → (clk_iioproxy_round_rate w hw x parent_rate).1 = (x : Int)) ∧
    (2 ^ (w - 1) ≤ x →
      (clk_iioproxy_round_rate w hw x parent_rate).1 = (x : Int) - 2 ^ w) := by
  have hm : x % 2 ^ w = x := Nat.mod_eq_of_lt hx
  refine ⟨rfl, ?_, ?_⟩
  · intro h
    simp only [clk_iioproxy_round_rate, long_of_ulong, hm, if_pos h]
  · intro h
    simp only [clk_iioproxy_round_rate, long_of_ulong, hm, if_neg (not_lt.mpr h)]

/-- Witness of C9, amended: the request 1000 on a 64-bit machine. -/
theorem round_rate_identity_as_long_witness :
    (clk_iioproxy_round_rate 64 world_at_1000 1000 5).2 = world_at_1000 ∧
    (1000 < 2 ^ (64 - 1) →
      (clk_iioproxy_round_rate 64 world_at_1000 1000 5).1 = ((1000 : Nat) : Int)) ∧
    (2 ^ (64 - 1) ≤ 1000 →
      (clk_iioproxy_round_rate 64 world_at_1000 1000 5).1 = ((1000 : Nat) : Int) - 2 ^ 64) :=
  round_rate_identity_as_long 64 world_at_1000 1000 5 (by norm_num)

/-! ## C10: the write that `set_rate` issues -/

/-- C10, counterexample: for the request `2^31` on a channel that accepts
writes, the value handed to `write_raw` is `-2^31`, not the request. -/
theorem set_rate_narrows_large_rate :
    (clk_iioproxy_set_rate (world_of (some ok_dev) 0) 2147483648 0).map
        (fun r => (r.1, r.2.writes)) =
      .ret (0, [{ channel := 0, val := -2147483648, val2 := 0,
                  mask := .IIO_CHAN_INFO_FREQUENCY, status := 0 }]) ∧
    (-2147483648 : Int) ≠ ((2147483648 : Nat) : Int) := by
  decide

/-- C10, amended: for a request different from the cached rate, on a device
with channels, an operation table and a write operation, `clk_iioproxy_set_rate`
returns and logs exactly one write: to channel index 0, of class frequency, with
`val2 = 0` and the request narrowed to `int` as `val`; that value equals the
request exactly when the request is at most `2^31 - 1`. -/
theorem set_rate_issues_one_write {σ : Type} (hw : world σ) (rate parent_rate : Nat)
    (dev : iio_dev σ) (chans : List iio_chan_spec) (info : iio_info σ)
    (f : σ → iio_chan_spec → Int → Int → iio_chan_info_enum → Int × σ)
    (hne : rate ≠ hw.st.current_rate) (hd : hw.st.indio_dev = some dev)
    (hc : dev.channels = some chans) (hi : dev.info = some info)
    (hf : info.write_raw = some f) :
    (∃ status hw1, clk_iioproxy_set_rate hw rate parent_rate = .ret (status, hw1) ∧
      hw1.writes = hw.writes ++
        [{ channel := 0, val := int_of_ulong rate, val2 := 0,
           mask := .IIO_CHAN_INFO_FREQUENCY,
           status := (f hw.hwstate { channel := 0 } (int_of_ulong rate) 0
             .IIO_CHAN_INFO_FREQUENCY).1 }]) ∧
    (int_of_ulong rate = (rate : Int) ↔ rate < 2 ^ 31) := by
  refine ⟨?_, int_of_ulong_eq_iff rate⟩
  unfold clk_iioproxy_set_rate
  dsimp only
  rw [if_neg hne, hd]
  dsimp only
  rw [hc]
  dsimp only
  rw [hi]
  dsimp only
  rw [hf]
  dsimp only
  split
  · exact ⟨_, _, rfl, rfl⟩
  · exact ⟨_, _, rfl, rfl⟩

/-- Witness of C10, amended: the request 1000 on a clock cached at 0. -/
theorem set_rate_issues_one_write_witness :
    (∃ status hw1, clk_iioproxy_set_rate (world_of (some ok_dev) 0) 1000 0
        = .ret (status, hw1) ∧
      hw1.writes = (world_of (some ok_dev) 0).writes ++
        [{ channel := 0, val := int_of_ulong 1000, val2 := 0,
           mask := .IIO_CHAN_INFO_FREQUENCY,
           status := ((fun s _ _ _ _ => (0, s) :
               Unit → iio_chan_spec → Int → Int → iio_chan_info_enum → Int × Unit)
             (world_of (some ok_dev) 0).hwstate { channel := 0 } (int_of_ulong 1000) 0
             .IIO_CHAN_INFO_FREQUENCY).1 }]) ∧
    (int_of_ulong 1000 = ((1000 : Nat) : Int) ↔ 1000 < 2 ^ 31) :=
  set_rate_issues_one_write (world_of (some ok_dev) 0) 1000 0 ok_dev [{ channel := 0 }]
    ok_info _ (by decide) rfl rfl rfl rfl


/-! ## Channel resolution: C7 and C8 -/

/-- The registry walk stops at the first device that `is_bound_to` the handle
and stores it; when there is none, the search record is untouched. -/
theorem bus_for_each_dev_find {σ : Type} (bus : List (device σ)) (idp : iioproxy_devpair σ) :
    bus_for_each_dev bus idp find_iio_from_platform_dev =
      match bus.find? (is_bound_to idp.of_iio) with
      | some d => (1, { idp with dev_iio := some d })
      | none => (0, idp) := by
  induction bus with
  | nil => rfl
  | cons dev rest ih =>
    unfold bus_for_each_dev
    by_cases hm : idp.of_iio = dev.of_node ∧ dev.driver.isSome = true
    · have hb : is_bound_to idp.of_iio dev = true := by
        simp [is_bound_to, hm.1, hm.2]
      simp only [find_iio_from_platform_dev, if_pos hm, List.find?_cons, hb]
      simp
    · have hb : is_bound_to idp.of_iio dev = false := by
        simp only [is_bound_to, Bool.and_eq_false_iff, decide_eq_false_iff_not]
        by_cases h1 : idp.of_iio = dev.of_node
        · right
          simpa [h1] using hm
        · left
          exact h1
      simp only [find_iio_from_platform_dev, if_neg hm, List.find?_cons, hb]
      simpa using ih

/-- When some device is bound to the handle, resolution yields the first such
device of the registry, whatever the stack slot held. -/
theorem resolve_channel_found {σ : Type} (handle : Option Nat) (stack : Option (device σ))
    (bus : List (device σ)) (d : device σ)
    (h : bus.find? (is_bound_to handle) = some d) :
    resolve_channel handle stack bus = (1, { of_iio := handle, dev_iio := some d }) := by
  unfold resolve_channel
  dsimp only
  rw [bus_for_each_dev_find]
  dsimp only
  rw [h]

/-- When no device is bound to the handle, resolution yields what the stack
slot of `idp.dev_iio` held. -/
theorem resolve_channel_not_found {σ : Type} (handle : Option Nat)
    (stack : Option (device σ)) (bus : List (device σ))
    (h : bus.find? (is_bound_to handle) = none) :
    resolve_channel handle stack bus = (0, { of_iio := handle, dev_iio := stack }) := by
  unfold resolve_channel
  dsimp only
  rw [bus_for_each_dev_find]
  dsimp only
  rw [h]

/-- C7, the code at the failing input: without an `iiohwdev` handle
(`of_iio == NULL`), on a platform bus that holds a driver-bound device without a
device-tree node, the walk reports a match and resolution yields that device,
not an absent channel. -/
theorem resolve_without_handle_matches_nodeless :
    (resolve_channel none none [iio_platform_dev ok_dev, nodeless_dev]).1 = 1 ∧
    ((resolve_channel none none [iio_platform_dev ok_dev, nodeless_dev]).2.dev_iio.map
      (fun d => (d.of_node, d.driver))) = some (none, some "alarmtimer") := by
  decide

/-- C8, the code at the failing input: with the handle of node 1 and a platform
bus whose only device of node 1 has no bound driver, the walk reports no match
and `idp.dev_iio` still holds what the uninitialised stack slot held (here a
pointer to an unrelated device), so the resolved device is not absent. -/
theorem resolve_no_match_keeps_stack_slot :
    (resolve_channel (some 1) (some stale_dev) [unbound_dev]).1 = 0 ∧
    ((resolve_channel (some 1) (some stale_dev) [unbound_dev]).2.dev_iio.map
      (fun d => (d.of_node, d.driver))) = some (some 9, some "other") := by
  decide


/-! ## Setup: C4, C5 and C6 -/

/-- When the handle is bound to a device and allocation, registration and
provider advertisement succeed, setup comes down to the forced `set_rate` on a
clock cached at 0, whose status is discarded. -/
theorem setup_resolved {σ : Type} (env : kernel_env σ) (node : device_node) (f : Nat)
    (d : device σ) (hf : node.clock_frequency = some f)
    (hres : env.platform_bus.find? (is_bound_to node.iiohwdev) = some d)
    (hk : env.clk.kzalloc_ok = true) (hr : env.clk.clk_hw_register = 0)
    (hp : env.clk.of_clk_add_provider = 0) :
    _of_iioproxy_clk_setup env node =
      match clk_iioproxy_set_rate
          { st := { current_rate := 0, fixed_accuracy := node.clock_accuracy.getD 0,
                    indio_dev := d.driver_data },
            hwstate := env.hwstate, writes := env.writes } f 0 with
      | .fault => .fault
      | .ret (_, hw) => .ret { ptr := .clk hw, registered := true, provider := true } := by
  unfold _of_iioproxy_clk_setup
  rw [hf]
  dsimp only
  rw [resolve_channel_found _ _ _ d hres]
  simp only [dev_get_drvdata, clk_register_iioproxy_with_accuracy,
    clk_hw_register_iioproxy_with_accuracy, hk, hr, hp]
  simp

/-- C4, the code at the failing input: for `{clock-frequency: 1000, iiohwdev}`
resolving to a device whose write fails, with registration and provider
advertisement succeeding, `_of_iioproxy_clk_setup` returns the clock (no
`ERR_PTR`), registered and advertised, reporting rate 0 after one failed write. -/
theorem setup_ignores_failed_initial_write :
    (_of_iioproxy_clk_setup (kernel_of [iio_platform_dev fail_dev]) (clock_node 1000)).map
        setup_ret.view =
      .ret { err := none, rate := 0, accuracy := 0,
             writes := [{ channel := 0, val := 1000, val2 := 0,
                          mask := .IIO_CHAN_INFO_FREQUENCY, status := -5 }],
             registered := true, provider := true } := by
  decide

/-- C6: for a configuration with `clock-frequency = f`, no `clock-accuracy`, and
an `iiohwdev` handle whose first bound device carries an IIO device with
channels and a write operation that always returns 0, and with allocation,
registration and provider advertisement succeeding, `_of_iioproxy_clk_setup`
returns the clock, registered and advertised, and the clock reports rate `f`
and accuracy 0. -/
theorem setup_reports_configured_rate {σ : Type} (env : kernel_env σ) (node : device_node)
    (f handle p q : Nat) (d : device σ) (iio : iio_dev σ) (chans : List iio_chan_spec)
    (info : iio_info σ)
    (wr : σ → iio_chan_spec → Int → Int → iio_chan_info_enum → Int × σ)
    (hf : node.clock_frequency = some f) (ha : node.clock_accuracy = none)
    (hh : node.iiohwdev = some handle)
    (hres : env.platform_bus.find? (is_bound_to (some handle)) = some d)
    (hdd : d.driver_data = some iio) (hc : iio.channels = some chans)
    (hi : iio.info = some info) (hw : info.write_raw = some wr)
    (hok : ∀ s c v v2 m, (wr s c v v2 m).1 = 0)
    (hk : env.clk.kzalloc_ok = true) (hr : env.clk.clk_hw_register = 0)
    (hp : env.clk.of_clk_add_provider = 0) :
    ∃ clk : world σ,
      _of_iioproxy_clk_setup env node =
        .ret { ptr := .clk clk, registered := true, provider := true } ∧
      clk_iioproxy_recalc_rate clk p = f ∧ clk_iioproxy_recalc_accuracy clk q = 0 := by
  rw [setup_resolved env node f d hf (by rw [hh]; exact hres) hk hr hp]
  unfold clk_iioproxy_set_rate
  simp only [hdd, hc, hi, hw, ha, hok, Option.getD_none]
  by_cases h0 : f = 0
  · subst h0
    simp only [↓reduceIte]
    exact ⟨_, rfl, rfl, rfl⟩
  · simp only [h0, ↓reduceIte, ne_eq, not_true_eq_false]
    exact ⟨_, rfl, rfl, rfl⟩

/-- Witness of C6: `clock-frequency = 1000`, the handle resolving to a channel
whose write always succeeds. -/
theorem setup_reports_configured_rate_witness :
    ∃ clk : world Unit,
      _of_iioproxy_clk_setup (kernel_of [unbound_dev, iio_platform_dev ok_dev])
          (clock_node 1000) =
        .ret { ptr := .clk clk, registered := true, provider := true } ∧
      clk_iioproxy_recalc_rate clk 0 = 1000 ∧ clk_iioproxy_recalc_accuracy clk 0 = 0 :=
  setup_reports_configured_rate (kernel_of [unbound_dev, iio_platform_dev ok_dev])
    (clock_node 1000) 1000 1 0 0 (iio_platform_dev ok_dev) ok_dev [{ channel := 0 }] ok_info
    (fun s _ _ _ _ => (0, s)) rfl rfl rfl rfl rfl rfl rfl rfl
    (fun _ _ _ _ _ => rfl) rfl rfl rfl


/-- With a channel reference attached, a run of `set_rate` calls returns. -/
theorem set_rate_seq_returns {σ : Type} (calls : List (Nat × Nat)) (hw : world σ)
    (dev : iio_dev σ) (hd : hw.st.indio_dev = some dev) :
    ∃ final, set_rate_seq hw calls = .ret final := by
  induction calls generalizing hw with
  | nil => exact ⟨hw, rfl⟩
  | cons c cs ih =>
    obtain ⟨s, hw1, h1⟩ := set_rate_returns hw c.1 c.2 dev hd
    have hd1 : hw1.st.indio_dev = some dev := by
      rcases set_rate_ret_cases hw hw1 c.1 c.2 s h1 with
        ⟨he, _⟩ | ⟨_, _, hst, _⟩ | ⟨_, _, hst, _⟩
      · rw [he]; exact hd
      · rw [hst]; exact hd
      · rw [hst]; exact hd
    obtain ⟨final, hf⟩ := ih hw1 hd1
    refine ⟨final, ?_⟩
    unfold set_rate_seq
    rw [h1]
    exact hf

/-- C5, the code at the failing input: for `clock-frequency = 1000` on a channel
whose write fails (and likewise on a channel without a write operation), setup
hands back a clock although no write has succeeded, and
`clk_iioproxy_recalc_rate` on it returns 0, not the configured 1000, also after
a further failed `set_rate(2000)`. -/
theorem cached_rate_zero_without_accepted_write :
    (setup_then_set_rates (kernel_of [iio_platform_dev nowrite_dev]) (clock_node 1000) []).map
        (Option.map (fun hw => (clk_iioproxy_recalc_rate hw 0, hw.writes)))
      = .ret (some (0, [])) ∧
    (setup_then_set_rates (kernel_of [iio_platform_dev fail_dev]) (clock_node 1000) []).map
        (Option.map (fun hw => (clk_iioproxy_recalc_rate hw 0, last_ok_val hw.writes)))
      = .ret (some (0, none)) ∧
    (setup_then_set_rates (kernel_of [iio_platform_dev fail_dev]) (clock_node 1000)
        [(2000, 0)]).map
        (Option.map (fun hw => (clk_iioproxy_recalc_rate hw 0, last_ok_val hw.writes)))
      = .ret (some (0, none)) := by
  decide

end IioProxy
